import Mathlib

/-!
Verification of the real-time chat relay (Rocket + tokio broadcast).

The program is a single Rust file: a `Message` struct with Rocket form
validation, a tokio broadcast channel of capacity 1024 created at startup,
a `post` handler that sends the form message into the channel (ignoring the
result), and an `events` handler that subscribes and turns each received
message into one JSON server-sent event, looping until the channel closes
or the Rocket `Shutdown` future resolves.

The shallow embedding below models:
- `Message` and the Rocket `len(..30)` / `len(..20)` field validators;
- the tokio broadcast channel as the full list of successfully sent
  messages (`history`), with the write position equal to `history.length`,
  a fixed `capacity`, and a `closed` flag; a subscriber is a cursor (the
  sequence number of the next message it will read);
- `send` per tokio semantics: with zero active receivers it returns an
  error carrying the value back and buffers nothing (the source comment
  states "Send fails if there are no active subscribers"); otherwise it
  appends the message and returns the receiver count;
- `recv` per tokio semantics: if the cursor has fallen more than
  `capacity` behind the write position, it returns `lagged` with the
  number of skipped messages and resynchronizes the cursor to the oldest
  retained entry; otherwise it returns the next message, or `closed`
  when the channel is torn down, or `pending` when it would suspend;
- the body of the `events` loop as a step function over the outcome of
  the three-way `select!` (a receive result or the shutdown future).
-/

namespace RealtimeChat

/-- The `Message` struct: fields `room`, `username`, `message`. -/
structure Message where
  room : String
  username : String
  message : String
deriving Repr, DecidableEq

/-- Rocket validator `len(..30)` on `room`: the length range `..30` is
exclusive, so lengths 0 through 29 pass. -/
def roomValid (r : String) : Bool := decide (r.length < 30)

/-- Rocket validator `len(..20)` on `username`: lengths 0 through 19 pass. -/
def usernameValid (u : String) : Bool := decide (u.length < 20)

/-- The whole-form validation Rocket performs before the `post` handler
runs: both field validators must pass; `message` has no validator. -/
def formValid (m : Message) : Bool := roomValid m.room && usernameValid m.username

/-- State of the broadcast channel: `history` is the list of all messages
ever successfully sent (the write position is `history.length`), `capacity`
the ring-buffer size fixed at construction, `closed` whether the channel
has been torn down. The retained window is the last `capacity` entries. -/
structure Channel where
  capacity : Nat
  history : List Message
  closed : Bool
deriving Repr, DecidableEq

/-- Result of `Sender::send`: `Ok(receiver_count)` on success, or an error
returning the unsent value when no receiver exists. -/
inductive SendResult where
  | ok (receivers : Nat)
  | err (value : Message)
deriving Repr, DecidableEq

/-- `queue.send(msg)` with `receivers` active subscribers: fails (and
buffers nothing) when there are none, otherwise appends at the next
sequence number. -/
def send (ch : Channel) (receivers : Nat) (m : Message) : SendResult × Channel :=
  if receivers = 0 then
    (SendResult.err m, ch)
  else
    (SendResult.ok receivers, { ch with history := ch.history ++ [m] })

/-- `queue.subscribe()`: a new cursor starting at the current write
position, so the subscriber sees nothing sent before it attached. -/
def subscribe (ch : Channel) : Nat := ch.history.length

/-- Result of `Receiver::recv()`: the next message, a lag report with the
skipped count, channel closure, or `pending` when the call would suspend
awaiting a new message. -/
inductive RecvResult where
  | ok (m : Message)
  | lagged (skipped : Nat)
  | closed
  | pending
deriving Repr, DecidableEq

/-- Whether a receive outcome is the lag signal. -/
def RecvResult.isLagged : RecvResult → Bool
  | RecvResult.lagged _ => true
  | _ => false

/-- `rx.recv()` for a subscriber whose cursor is `cursor`: if the cursor
fell more than `capacity` behind the write position its slot was
overwritten, so it yields `lagged` with the skipped count and the cursor
resynchronizes to the oldest retained entry `history.length - capacity`;
otherwise it reads the message at the cursor and advances by one;
otherwise `closed` if the channel is closed, else it would suspend. -/
def recv (ch : Channel) (cursor : Nat) : RecvResult × Nat :=
  if cursor + ch.capacity < ch.history.length then
    (RecvResult.lagged (ch.history.length - ch.capacity - cursor), ch.history.length - ch.capacity)
  else if h : cursor < ch.history.length then
    (RecvResult.ok (ch.history.get ⟨cursor, h⟩), cursor + 1)
  else if ch.closed then
    (RecvResult.closed, cursor)
  else
    (RecvResult.pending, cursor)

/-- Fuel-indexed repeated `recv`: the list of messages a subscriber at
`cursor` obtains by reading until the channel has nothing more for it,
skipping over a lag by resynchronizing, exactly as `recv` dictates. -/
def drainAux (ch : Channel) : Nat → Nat → List Message
  | 0, _ => []
  | fuel + 1, cursor =>
    if cursor + ch.capacity < ch.history.length then
      drainAux ch fuel (ch.history.length - ch.capacity)
    else if h : cursor < ch.history.length then
      ch.history.get ⟨cursor, h⟩ :: drainAux ch fuel (cursor + 1)
    else
      []

/-- All messages a subscriber at `cursor` receives by reading the channel
to exhaustion (enough fuel for the whole history). -/
def drainFrom (ch : Channel) (cursor : Nat) : List Message :=
  drainAux ch (ch.history.length + 1) cursor

/-- HTTP outcome of the publish route: Rocket returns a 2xx from the
handler, or a 4xx from the form guard before the handler runs. -/
inductive PostOutcome where
  | success
  | badRequest
deriving Repr, DecidableEq

/-- The `post` handler body: `let _res = queue.send(form.into_inner());`
— the send result is discarded and only the channel state matters. -/
def post (ch : Channel) (receivers : Nat) (m : Message) : Channel :=
  (send ch receivers m).2

/-- The whole publish route: Rocket's form guard validates the field
lengths first; only a valid message reaches the handler (and hence the
channel), and the handler always responds with success. -/
def postRoute (ch : Channel) (receivers : Nat) (m : Message) : PostOutcome × Channel :=
  if formValid m then
    (PostOutcome.success, post ch receivers m)
  else
    (PostOutcome.badRequest, ch)

/-- One resolution of the three-way `select!` inside the `events` loop:
either `rx.recv()` completed (with a message, closure, or a lag), or the
`Shutdown` future resolved first. -/
inductive LoopEvent where
  | recvOk (m : Message)
  | recvClosed
  | recvLagged (skipped : Nat)
  | shutdown
deriving Repr, DecidableEq

/-- `Event::json(&msg)`: the serde serialization of `Message`, field names
`room`, `username`, `message` with the field values, in declaration
order. -/
def eventJson (m : Message) : List (String × String) :=
  [("room", m.room), ("username", m.username), ("message", m.message)]

/-- What one loop iteration does: yield an event payload, continue
silently, or break out of the loop. -/
inductive StepResult where
  | emit (payload : List (String × String))
  | skip
  | halt
deriving Repr, DecidableEq

/-- The body of the `events` loop, straight from the `select!`/`match`:
`Ok(msg)` yields `Event::json(&msg)`; `RecvError::Closed` breaks;
`RecvError::Lagged(_)` continues without emitting; shutdown breaks. -/
def eventsStep : LoopEvent → StepResult
  | LoopEvent.recvOk m => StepResult.emit (eventJson m)
  | LoopEvent.recvClosed => StepResult.halt
  | LoopEvent.recvLagged _ => StepResult.skip
  | LoopEvent.shutdown => StepResult.halt

/-- Running the `events` loop over a sequence of `select!` resolutions:
returns the emitted payloads in order and whether the loop broke (the
stream terminated) before exhausting the sequence. -/
def eventsRun : List LoopEvent → List (List (String × String)) × Bool
  | [] => ([], false)
  | e :: rest =>
    match eventsStep e with
    | StepResult.emit p => ((eventsRun rest).1.cons p, (eventsRun rest).2)
    | StepResult.skip => eventsRun rest
    | StepResult.halt => ([], true)

/-- The channel the `rocket()` launcher constructs once at startup:
`channel::<Message>(1024).0`, capacity 1024, empty, open. -/
def rocketChannel : Channel := { capacity := 1024, history := [], closed := false }

/- ### Helper lemmas -/

/-- With enough fuel and no lag at the cursor, draining yields exactly the
suffix of the history from the cursor on. -/
theorem drainAux_eq_drop (ch : Channel) (fuel : Nat) : ∀ (cursor : Nat),
    ch.history.length - cursor < fuel →
    ch.history.length ≤ cursor + ch.capacity →
    drainAux ch fuel cursor = ch.history.drop cursor := by
  induction fuel with
  | zero => intro cursor h1 _; omega
  | succ fuel ih =>
    intro cursor h1 h2
    unfold drainAux
    rw [if_neg (by omega)]
    by_cases hc : cursor < ch.history.length
    · rw [dif_pos hc, ih (cursor + 1) (by omega) (by omega),
        List.drop_eq_getElem_cons hc, List.get_eq_getElem]
    · rw [dif_neg hc, List.drop_eq_nil_of_le (by omega)]

/-- A subscriber that is not lagged receives exactly the messages from its
cursor to the end of the history, in publish order. -/
theorem drainFrom_eq_drop (ch : Channel) (cursor : Nat)
    (h : ch.history.length ≤ cursor + ch.capacity) :
    drainFrom ch cursor = ch.history.drop cursor :=
  drainAux_eq_drop ch _ cursor (by omega) h

/-- A lagged subscriber resynchronizes and then receives exactly the
retained window, the last `capacity` messages, in publish order. -/
theorem drainFrom_lagged_start (ch : Channel) (cursor : Nat)
    (h : cursor + ch.capacity < ch.history.length) :
    drainFrom ch cursor = ch.history.drop (ch.history.length - ch.capacity) := by
  unfold drainFrom drainAux
  rw [if_pos h]
  exact drainAux_eq_drop ch _ _ (by omega) (by omega)

/-- Once the loop body breaks, later `select!` resolutions are never
processed: the run up to and including the breaking event is the whole
run. -/
theorem eventsRun_halt_append (e : LoopEvent) (he : eventsStep e = StepResult.halt) :
    ∀ (pre post : List LoopEvent),
    eventsRun (pre ++ e :: post) = eventsRun (pre ++ [e]) ∧
    (eventsRun (pre ++ [e])).2 = true := by
  intro pre post
  induction pre with
  | nil => simp [eventsRun, he]
  | cons p pre ih =>
    simp only [List.cons_append, eventsRun]
    cases hs : eventsStep p <;> simp [ih.1, ih.2]

/- ### Concrete messages used by witnesses -/

/-- A sample message. -/
def mA : Message := { room := "lobby", username := "ann", message := "one" }

/-- A sample message. -/
def mB : Message := { room := "lobby", username := "bob", message := "two" }

/-- A sample message. -/
def mC : Message := { room := "lobby", username := "cat", message := "three" }

/- ### Claims -/

/-- Claim C1: a subscriber attaching when the history is `h0` receives
none of `h0` and then exactly the subsequent publishes `ms1 ++ ms2` in
publish order (given it never falls more than the capacity behind); a
second subscriber attaching later, after `ms1` more publishes, receives
exactly `ms2`; the second sequence is a suffix of the first, so two
concurrently attached subscribers observe the common publishes in the
same relative order. -/
theorem subscriber_receives_exactly_after_attach (C : Nat) (h0 ms1 ms2 : List Message)
    (b : Bool) (hC : (ms1 ++ ms2).length ≤ C) :
    drainFrom ⟨C, h0 ++ (ms1 ++ ms2), b⟩ (subscribe ⟨C, h0, b⟩) = ms1 ++ ms2 ∧
    drainFrom ⟨C, h0 ++ (ms1 ++ ms2), b⟩ (subscribe ⟨C, h0 ++ ms1, b⟩) = ms2 ∧
    drainFrom ⟨C, h0 ++ (ms1 ++ ms2), b⟩ (subscribe ⟨C, h0 ++ ms1, b⟩) <:+
      drainFrom ⟨C, h0 ++ (ms1 ++ ms2), b⟩ (subscribe ⟨C, h0, b⟩) := by
  have e1 : drainFrom ⟨C, h0 ++ (ms1 ++ ms2), b⟩ (subscribe ⟨C, h0, b⟩) = ms1 ++ ms2 := by
    rw [drainFrom_eq_drop]
    · exact List.drop_left h0 (ms1 ++ ms2)
    · simp only [List.length_append] at hC
      simp only [subscribe, List.length_append]
      omega
  have e2 : drainFrom ⟨C, h0 ++ (ms1 ++ ms2), b⟩ (subscribe ⟨C, h0 ++ ms1, b⟩) = ms2 := by
    rw [drainFrom_eq_drop]
    · rw [show h0 ++ (ms1 ++ ms2) = (h0 ++ ms1) ++ ms2 by simp]
      exact List.drop_left (h0 ++ ms1) ms2
    · simp only [List.length_append] at hC
      simp only [subscribe, List.length_append]
      omega
  refine ⟨e1, e2, ?_⟩
  rw [e1, e2]
  exact List.suffix_append ms1 ms2

/-- Witness for C1 at a concrete channel of capacity 2: the first
subscriber attaches after `mA`, the second after `mA, mB`. -/
theorem subscriber_receives_exactly_after_attach_witness :
    drainFrom ⟨2, [mA] ++ ([mB] ++ [mC]), false⟩ (subscribe ⟨2, [mA], false⟩) = [mB] ++ [mC] ∧
    drainFrom ⟨2, [mA] ++ ([mB] ++ [mC]), false⟩ (subscribe ⟨2, [mA] ++ [mB], false⟩) = [mC] ∧
    drainFrom ⟨2, [mA] ++ ([mB] ++ [mC]), false⟩ (subscribe ⟨2, [mA] ++ [mB], false⟩) <:+
      drainFrom ⟨2, [mA] ++ ([mB] ++ [mC]), false⟩ (subscribe ⟨2, [mA], false⟩) :=
  subscriber_receives_exactly_after_attach 2 [mA] [mB] [mC] false (by decide)

/-- Claim C2: a subscriber more than `C` unread messages behind gets, on
its next `recv`, the `Lagged` signal carrying the skipped count
(`history.length - C - cursor`) with its cursor resynchronized to the
oldest retained message; the loop body emits nothing for a lag and
continues; and after recovery the subscriber receives exactly the retained
suffix of the history in publish order — nothing out of order. -/
theorem lagged_recovery (ch : Channel) (c : Nat)
    (hlag : ch.capacity < ch.history.length - c) :
    recv ch c =
      (RecvResult.lagged (ch.history.length - ch.capacity - c), ch.history.length - ch.capacity) ∧
    eventsStep (LoopEvent.recvLagged (ch.history.length - ch.capacity - c)) = StepResult.skip ∧
    drainFrom ch c = ch.history.drop (ch.history.length - ch.capacity) := by
  refine ⟨?_, rfl, ?_⟩
  · unfold recv
    rw [if_pos (by omega)]
  · exact drainFrom_lagged_start ch c (by omega)

/-- Witness for C2: capacity 1, three messages published, subscriber still
at cursor 0: it lags by 2 and resynchronizes to position 2, then receives
only `mC`. -/
theorem lagged_recovery_witness :
    recv ⟨1, [mA, mB, mC], false⟩ 0 = (RecvResult.lagged 2, 2) ∧
    eventsStep (LoopEvent.recvLagged 2) = StepResult.skip ∧
    drainFrom ⟨1, [mA, mB, mC], false⟩ 0 = [mA, mB, mC].drop 2 :=
  lagged_recovery ⟨1, [mA, mB, mC], false⟩ 0 (by decide)

/-- Claim C3: the loop waits on one `select!` whose resolutions are the
receive outcomes and the shutdown future; whenever the shutdown future
resolves, the loop breaks at that iteration: the rest of the resolution
sequence is never processed, the run is terminated, and in particular a
stream that never sees any message terminates immediately on shutdown
alone, emitting nothing. -/
theorem shutdown_terminates_stream (pre post : List LoopEvent) :
    eventsRun (pre ++ LoopEvent.shutdown :: post) = eventsRun (pre ++ [LoopEvent.shutdown]) ∧
    (eventsRun (pre ++ [LoopEvent.shutdown])).2 = true ∧
    eventsRun [LoopEvent.shutdown] = ([], true) :=
  ⟨(eventsRun_halt_append LoopEvent.shutdown rfl pre post).1,
   (eventsRun_halt_append LoopEvent.shutdown rfl pre post).2, rfl⟩

/-- A room name of exactly 30 characters. -/
def room30 : String := String.mk (List.replicate 30 'a')

/-- Claim C4 counterexample: the claim says a request whose `room` has
exactly 30 characters succeeds, rejection happening only beyond 30.  The
validator is `len(..30)`, an exclusive range, so a 30-character room is
rejected at the boundary and never reaches the channel. -/
theorem room_of_30_rejected :
    room30.length = 30 ∧
    formValid { room := room30, username := "u", message := "x" } = false ∧
    postRoute rocketChannel 1 { room := room30, username := "u", message := "x" } =
      (PostOutcome.badRequest, rocketChannel) := by
  refine ⟨by decide, by decide, ?_⟩
  unfold postRoute
  rw [if_neg (by decide)]

/-- Claim C4 amended: a publish request is rejected at the boundary
(4xx, channel untouched) if and only if `room` has 30 or more characters
or `username` has 20 or more; otherwise it succeeds; `message` plays no
role in validation. -/
theorem validation_boundary (ch : Channel) (n : Nat) (m : Message) :
    ((postRoute ch n m).1 = PostOutcome.badRequest ↔
      30 ≤ m.room.length ∨ 20 ≤ m.username.length) ∧
    ((postRoute ch n m).1 = PostOutcome.badRequest → (postRoute ch n m).2 = ch) ∧
    ((postRoute ch n m).1 = PostOutcome.success ↔
      m.room.length < 30 ∧ m.username.length < 20) := by
  unfold postRoute formValid roomValid usernameValid
  by_cases h1 : m.room.length < 30 <;> by_cases h2 : m.username.length < 20 <;>
    simp [h1, h2] <;> omega

/-- Witness for C4 amended: the 30-character room is rejected and the
channel is left untouched. -/
theorem validation_boundary_witness :
    (postRoute rocketChannel 1 { room := room30, username := "u", message := "x" }).2 =
      rocketChannel :=
  (validation_boundary rocketChannel 1 { room := room30, username := "u", message := "x" }).2.1
    (by decide)

/-- Claim C5 counterexample: the claim says publish returns
`Ok(count_of_active_subscribers)` in every state and `Ok(0)` when none
exist.  With zero active subscribers, `send` returns the error variant
carrying the message back — it does not return `Ok(0)`. -/
theorem send_without_subscribers_errs :
    (send rocketChannel 0 mA).1 = SendResult.err mA ∧
    (send rocketChannel 0 mA).1 ≠ SendResult.ok 0 := by
  exact ⟨rfl, by decide⟩

/-- Claim C5 amended: `send` returns `Ok(n)` when `n ≥ 1` subscribers are
active, and an error carrying the message back when there are none; the
`post` handler discards this result either way, responding with success
for every valid form regardless of subscriber count. -/
theorem send_returns_count_or_error (ch : Channel) (n : Nat) (m : Message) :
    (send ch n m).1 = (if n = 0 then SendResult.err m else SendResult.ok n) ∧
    (postRoute ch n m).1 =
      (if formValid m then PostOutcome.success else PostOutcome.badRequest) := by
  constructor
  · unfold send
    by_cases h : n = 0 <;> simp [h]
  · unfold postRoute
    by_cases h : formValid m <;> simp [h]

/-- Claim C6: with a valid form, publishing with zero subscribers still
returns success; success is returned for every subscriber count; with no
subscribers the channel is unchanged (no observable effect); and for any
count, a subscriber attaching after the publish receives nothing of what
was published before it attached. -/
theorem publish_without_subscribers (ch : Channel) (m : Message) (n : Nat)
    (hv : formValid m = true) :
    (postRoute ch 0 m).1 = PostOutcome.success ∧
    (postRoute ch n m).1 = PostOutcome.success ∧
    (postRoute ch 0 m).2 = ch ∧
    drainFrom (postRoute ch n m).2 (subscribe (postRoute ch n m).2) = [] := by
  refine ⟨?_, ?_, ?_, ?_⟩
  · unfold postRoute
    rw [if_pos hv]
  · unfold postRoute
    rw [if_pos hv]
  · unfold postRoute
    rw [if_pos hv]
    rfl
  · rw [show subscribe (postRoute ch n m).2 = ((postRoute ch n m).2).history.length from rfl,
      drainFrom_eq_drop _ _ (by omega), List.drop_length]

/-- Witness for C6 at a concrete valid message and empty channel. -/
theorem publish_without_subscribers_witness :
    (postRoute rocketChannel 0 mA).1 = PostOutcome.success ∧
    (postRoute rocketChannel 0 mA).1 = PostOutcome.success ∧
    (postRoute rocketChannel 0 mA).2 = rocketChannel ∧
    drainFrom (postRoute rocketChannel 0 mA).2 (subscribe (postRoute rocketChannel 0 mA).2) = [] :=
  publish_without_subscribers rocketChannel mA 0 (by decide)

/-- The concrete message of the round-trip property. -/
def mHello : Message := { room := "r", username := "u", message := "hi" }

/-- Claim C7: at the startup capacity 1024, a subscriber attached before
`mHello` is published receives exactly that one message, and the loop
turns it into exactly one event whose JSON payload carries the fields
`room`, `username`, `message` with the published values byte-for-byte. -/
theorem round_trip (h0 : List Message) (b : Bool) :
    (send ⟨1024, h0, b⟩ 1 mHello).1 = SendResult.ok 1 ∧
    drainFrom (send ⟨1024, h0, b⟩ 1 mHello).2 (subscribe ⟨1024, h0, b⟩) = [mHello] ∧
    eventsRun [LoopEvent.recvOk mHello] = ([eventJson mHello], false) ∧
    eventJson mHello = [("room", "r"), ("username", "u"), ("message", "hi")] := by
  refine ⟨rfl, ?_, rfl, rfl⟩
  have hm : (send ⟨1024, h0, b⟩ 1 mHello).2 = ⟨1024, h0 ++ [mHello], b⟩ := rfl
  rw [hm, show subscribe ⟨1024, h0, b⟩ = h0.length from rfl, drainFrom_eq_drop]
  · exact List.drop_left h0 [mHello]
  · simp only [List.length_append, List.length_singleton]
    omega

/-- Claim C8: `recv` on a closed, fully read channel yields `Closed`; the
loop body breaks on `Closed`; the loop never processes anything after it,
that one stream ending there; and the channel state — hence every other
subscription, which holds only its own cursor — is untouched by it. -/
theorem closed_terminates_stream (pre post : List LoopEvent) (ch : Channel)
    (hc : ch.closed = true) :
    recv ch ch.history.length = (RecvResult.closed, ch.history.length) ∧
    eventsStep LoopEvent.recvClosed = StepResult.halt ∧
    eventsRun (pre ++ LoopEvent.recvClosed :: post) = eventsRun (pre ++ [LoopEvent.recvClosed]) ∧
    (eventsRun (pre ++ [LoopEvent.recvClosed])).2 = true := by
  refine ⟨?_, rfl, (eventsRun_halt_append LoopEvent.recvClosed rfl pre post).1,
    (eventsRun_halt_append LoopEvent.recvClosed rfl pre post).2⟩
  unfold recv
  rw [if_neg (by omega), dif_neg (by omega), if_pos hc]

/-- Witness for C8 on a concrete closed channel holding one message. -/
theorem closed_terminates_stream_witness :
    recv ⟨1024, [mA], true⟩ 1 = (RecvResult.closed, 1) ∧
    eventsStep LoopEvent.recvClosed = StepResult.halt ∧
    eventsRun ([] ++ LoopEvent.recvClosed :: []) = eventsRun ([] ++ [LoopEvent.recvClosed]) ∧
    (eventsRun ([] ++ [LoopEvent.recvClosed])).2 = true :=
  closed_terminates_stream [] [] ⟨1024, [mA], true⟩ rfl

/-- Claim C9: the launcher constructs the channel with capacity exactly
1024; `send` never alters the capacity; and on any channel of capacity
1024 a `recv` yields the lag signal precisely when the subscriber is more
than 1024 unread messages behind the write position. -/
theorem capacity_fixed_at_1024 (ch : Channel) (c n : Nat) (m : Message)
    (hcap : ch.capacity = 1024) :
    rocketChannel.capacity = 1024 ∧
    ((send ch n m).2).capacity = 1024 ∧
    ((recv ch c).1.isLagged = true ↔ 1024 < ch.history.length - c) := by
  refine ⟨rfl, ?_, ?_⟩
  · unfold send
    by_cases h : n = 0 <;> simp [h, hcap]
  · by_cases hl : c + ch.capacity < ch.history.length
    · unfold recv
      rw [if_pos hl]
      simp [RecvResult.isLagged]
      omega
    · unfold recv
      rw [if_neg hl]
      by_cases hn : c < ch.history.length
      · rw [dif_pos hn]
        simp [RecvResult.isLagged]
        omega
      · rw [dif_neg hn]
        by_cases hb : ch.closed = true <;>
          simp [hb, RecvResult.isLagged] <;> omega

/-- Witness for C9 on the startup channel itself. -/
theorem capacity_fixed_at_1024_witness :
    rocketChannel.capacity = 1024 ∧
    ((send rocketChannel 1 mA).2).capacity = 1024 ∧
    ((recv rocketChannel 0).1.isLagged = true ↔ 1024 < rocketChannel.history.length - 0) :=
  capacity_fixed_at_1024 rocketChannel 0 1 mA rfl

/-- Claim C10: the empty room and the empty username pass validation and
such a publish succeeds; validation is insensitive to the `message` field
and consists exactly of the two upper length bounds, so no field has a
minimum length. -/
theorem empty_fields_accepted (r u s t : String) :
    formValid { room := "", username := "", message := s } = true ∧
    (postRoute rocketChannel 0 { room := "", username := "", message := s }).1 =
      PostOutcome.success ∧
    formValid { room := r, username := u, message := s } =
      formValid { room := r, username := u, message := t } ∧
    formValid { room := r, username := u, message := s } =
      (roomValid r && usernameValid u) := by
  exact ⟨rfl, rfl, rfl, rfl⟩

end RealtimeChat
